import Mathlib

/-!
Shallow embedding of the contractflow backend (src/app): the data model
(models.py), the document store accessor (database.py), the workflow HTTP
handlers (main.py) and the clause router (clauses.py).  Time is modelled as
a natural number of seconds; Mongo collections are modelled as Lean lists;
a raised HTTPException is an `Except.error` carrying status code and detail.
Each handler returns its response together with the (possibly mutated)
collection, so "the store is unchanged" is a real statement about the code
path, not an artefact of the model.
-/

/-- models.py `UserRole`: the two roles, validated by Pydantic at user
creation, so no other role string reaches the store. -/
inductive UserRole
  | reviewer
  | approver
  deriving DecidableEq, Repr

/-- models.py `DocumentStatus`: the five-value status enum. -/
inductive DocumentStatus
  | new
  | pending
  | in_progress
  | changes_made
  | approved
  deriving DecidableEq, Repr

/-- models.py `User` (with the stored password hash, as kept in the users
collection after create_new_user hashes it). -/
structure UserRec where
  id : String
  email : String
  password : String
  role : UserRole
  deriving DecidableEq, Repr

/-- models.py `Document`, as stored in the documents collection.  `content`
is the already-encoded opaque blob (the bytes→base64 re-encoding done in the
handlers is not modelled; content is carried as an opaque string). -/
structure Doc where
  id : String
  title : String
  content : Option String
  reviewer_id : String
  approvers : List String
  status : DocumentStatus
  created_at : Nat
  last_modified : Nat
  notes : Option String
  last_reviewed_by : Option String
  changes_summary : Option String
  deriving DecidableEq, Repr

/-- models.py `DocumentUpdate`: the PUT request body.  A field that the
request leaves unset is `none` (Pydantic's exclude_unset distinction between
"absent" and "explicitly null" is collapsed to `none`, which no modelled
code path depends on). -/
structure DocumentUpdate where
  content : Option String := none
  approvers : Option (List String) := none
  status : Option DocumentStatus := none
  notes : Option String := none
  changes_summary : Option String := none
  deriving DecidableEq, Repr

/-- A `$set` payload handed to the store's update_document.  An outer `none`
means the key is absent from the payload; for keys the handlers may set to
null (`notes`, `changes_summary`) the value itself is an `Option String`. -/
structure UpdateData where
  status : Option DocumentStatus := none
  notes : Option (Option String) := none
  changes_summary : Option (Option String) := none
  last_reviewed_by : Option String := none
  content : Option String := none
  approvers : Option (List String) := none
  deriving DecidableEq, Repr

/-- A raised fastapi `HTTPException`: status code and detail string. -/
structure HTTPError where
  code : Nat
  detail : String
  deriving DecidableEq, Repr

/-- Python str(e) on a starlette HTTPException: "code: detail". -/
def httpExceptionToString (e : HTTPError) : String :=
  toString e.code ++ ": " ++ e.detail

/-- clauses.py `ClauseInDB`, as stored in the clauses collection. -/
structure Clause where
  id : String
  title : String
  description : String
  domain : String
  created_at : Nat
  last_modified : Nat
  deriving DecidableEq, Repr

namespace Database

/-- database.py `get_document_by_id`: find_one on `_id`. -/
def get_document_by_id (docs : List Doc) (doc_id : String) : Option Doc :=
  docs.find? (fun d => d.id == doc_id)

/-- database.py `get_user_by_id`: find_one on `_id`. -/
def get_user_by_id (users : List UserRec) (user_id : String) : Option UserRec :=
  users.find? (fun u => u.id == user_id)

/-- database.py `get_user_by_email`: find_one on `email`. -/
def get_user_by_email (users : List UserRec) (email : String) : Option UserRec :=
  users.find? (fun u => u.email == email)

/-- Mongo's `$set` applied to one document: every key present in the payload
overwrites the corresponding field.  database.py's update_document always
adds `last_modified = datetime.now()` to the payload first, so the updated
document's last_modified is the update time. -/
def applyUpdate (d : Doc) (u : UpdateData) (now : Nat) : Doc :=
  { d with
      status := u.status.getD d.status,
      notes := u.notes.getD d.notes,
      changes_summary := u.changes_summary.getD d.changes_summary,
      last_reviewed_by := (u.last_reviewed_by.map some).getD d.last_reviewed_by,
      content := (u.content.map some).getD d.content,
      approvers := u.approvers.getD d.approvers,
      last_modified := now }

/-- database.py `update_document`: update_one on `_id` with `$set` of the
payload plus `last_modified`.  update_one mutates at most the first match. -/
def update_document (docs : List Doc) (doc_id : String) (u : UpdateData)
    (now : Nat) : List Doc :=
  match docs with
  | [] => []
  | d :: rest =>
    if d.id == doc_id then applyUpdate d u now :: rest
    else d :: update_document rest doc_id u now

/-- Mongo `update_many`: apply `f` to every document matching `p`. -/
def update_many (docs : List Doc) (p : Doc → Prop) [DecidablePred p]
    (f : Doc → Doc) : List Doc :=
  docs.map (fun d => if p d then f d else d)

/-- One day, in the seconds-based time model. -/
def oneDay : Nat := 86400

/-- database.py `update_document_status`: the standalone sweep.  Sets status
to "pending" for every document with status "new" created strictly more
than one day before `now` (update_many is a raw `$set`, so it does not touch
last_modified). -/
def update_document_status (docs : List Doc) (now : Nat) : List Doc :=
  update_many docs
    (fun d => d.status = DocumentStatus.new ∧ d.created_at < now - oneDay)
    (fun d => { d with status := DocumentStatus.pending })

end Database

namespace MainApp

/-- Modelled from the spec: auth.py is not among the provided source files
(only its import and call sites in main.py are).  The spec describes the
auth component as "password hashing + bearer token issuance/verification";
verify_password is modelled as comparing the presented password with the
stored hash. -/
def verify_password (plain hashed : String) : Bool := plain == hashed

/-- Render a role the way main.py compares it, as its literal string. -/
def roleString : UserRole → String
  | UserRole.reviewer => "reviewer"
  | UserRole.approver => "approver"

/-- Modelled from the spec: auth.py's create_access_token is not in the
provided sources.  main.py passes sub (user id), email and role as the
token's claims; the token is modelled as an opaque encoding of the three. -/
def create_access_token (sub email role : String) : String :=
  sub ++ ":" ++ email ++ ":" ++ role

/-- main.py `login` (POST /token): look up the user by email; a missing
user or a failed password check raises 401; otherwise an access token
encoding id, email and role is returned. -/
def login (users : List UserRec) (username password : String) :
    Except HTTPError String :=
  match Database.get_user_by_email users username with
  | none => Except.error ⟨401, "Incorrect username or password"⟩
  | some user =>
    if verify_password password user.password then
      Except.ok (create_access_token user.id user.email (roleString user.role))
    else
      Except.error ⟨401, "Incorrect username or password"⟩

/-- The loop body of main.py `add_approvers` lines 123-129: an id is valid
when it resolves to an existing user whose role is "approver". -/
def isValidApprover (users : List UserRec) (approver_id : String) : Bool :=
  match Database.get_user_by_id users approver_id with
  | none => false
  | some approver => approver.role == UserRole.approver

/-- The first submitted id (in submission order) that fails the
approver-validation loop, if any; the loop raises 400 on it. -/
def firstInvalidApprover (users : List UserRec) (ids : List String) :
    Option String :=
  ids.find? (fun approver_id => !isValidApprover users approver_id)

/-- main.py `add_approvers` (POST /documents/{id}/approvers): 404 when the
document is missing, 403 unless the caller is the assigned reviewer, 400 on
the first invalid id — all before any write; only when every id validates is
the approvers field written through update_document. -/
def add_approvers (docs : List Doc) (users : List UserRec) (caller : UserRec)
    (document_id : String) (approver_ids : List String) (now : Nat) :
    Except HTTPError String × List Doc :=
  match Database.get_document_by_id docs document_id with
  | none => (Except.error ⟨404, "Document not found"⟩, docs)
  | some document =>
    if caller.role ≠ UserRole.reviewer ∨ caller.id ≠ document.reviewer_id then
      (Except.error ⟨403, "Only the assigned reviewer can add approvers"⟩, docs)
    else
      match firstInvalidApprover users approver_ids with
      | some bad =>
        (Except.error ⟨400, "Invalid approver ID: " ++ bad⟩, docs)
      | none =>
        (Except.ok "Approvers added successfully",
          Database.update_document docs document_id
            { approvers := some approver_ids } now)

/-- main.py `get_document` (GET /documents/{id}): 404 when missing, 403
unless the caller's id is the reviewer_id or is in approvers (role is not
consulted here); then, if the status is NEW or PENDING, the stored status is
updated to IN_PROGRESS — but the response body is the document as fetched
before that update. -/
def get_document (docs : List Doc) (caller : UserRec) (document_id : String)
    (now : Nat) : Except HTTPError Doc × List Doc :=
  match Database.get_document_by_id docs document_id with
  | none => (Except.error ⟨404, "Document not found"⟩, docs)
  | some document =>
    if caller.id ≠ document.reviewer_id ∧ caller.id ∉ document.approvers then
      (Except.error ⟨403, "Not authorized to access this document"⟩, docs)
    else
      if document.status = DocumentStatus.new
          ∨ document.status = DocumentStatus.pending then
        (Except.ok document,
          Database.update_document docs document_id
            { status := some DocumentStatus.in_progress } now)
      else
        (Except.ok document, docs)

/-- main.py line 209: if "status" is not in the update payload, carry the
document's current status into it. -/
def ensureStatus (u : UpdateData) (document : Doc) : UpdateData :=
  match u.status with
  | none => { u with status := some document.status }
  | some _ => u

/-- The payload built by the reviewer branch of main.py
`update_document_status` (lines 172-188): marking CHANGES_MADE sets status,
changes_summary and notes; any other reviewer update passes the set request
fields through (exclude_unset). -/
def reviewerUpdateData (update : DocumentUpdate) : UpdateData :=
  if update.status = some DocumentStatus.changes_made then
    { status := some DocumentStatus.changes_made,
      changes_summary := some update.changes_summary,
      notes := some update.notes }
  else
    { content := update.content,
      approvers := update.approvers,
      status := update.status,
      notes := update.notes.map some,
      changes_summary := update.changes_summary.map some }

/-- The payload built by the approver branch of main.py
`update_document_status` (lines 189-206): APPROVED stores the requested
status and notes; anything else sends back to IN_PROGRESS with notes,
records the caller as last_reviewed_by, and carries content when truthy. -/
def approverUpdateData (update : DocumentUpdate) (caller : UserRec) :
    UpdateData :=
  if update.status = some DocumentStatus.approved then
    { status := update.status, notes := some update.notes }
  else
    match update.content with
    | some c =>
      if c ≠ "" then
        { status := some DocumentStatus.in_progress,
          notes := some update.notes,
          last_reviewed_by := some caller.id,
          content := some c }
      else
        { status := some DocumentStatus.in_progress,
          notes := some update.notes,
          last_reviewed_by := some caller.id }
    | none =>
      { status := some DocumentStatus.in_progress,
        notes := some update.notes,
        last_reviewed_by := some caller.id }

/-- main.py `update_document_status` (PUT /documents/{id}): 404 when
missing; a reviewer must be the assigned reviewer_id (else 403), an
approver must be in approvers (else 403); the role-specific payload,
completed with the current status when none was set, goes through
update_document. -/
def update_document_status (docs : List Doc) (caller : UserRec)
    (document_id : String) (update : DocumentUpdate) (now : Nat) :
    Except HTTPError String × List Doc :=
  match Database.get_document_by_id docs document_id with
  | none => (Except.error ⟨404, "Document not found"⟩, docs)
  | some document =>
    match caller.role with
    | UserRole.reviewer =>
      if caller.id ≠ document.reviewer_id then
        (Except.error ⟨403, "Not authorized to update this document"⟩, docs)
      else
        (Except.ok "Document updated successfully",
          Database.update_document docs document_id
            (ensureStatus (reviewerUpdateData update) document) now)
    | UserRole.approver =>
      if caller.id ∉ document.approvers then
        (Except.error ⟨403, "Not authorized to update this document"⟩, docs)
      else
        (Except.ok "Document updated successfully",
          Database.update_document docs document_id
            (ensureStatus (approverUpdateData update caller) document) now)

end MainApp

namespace Clauses

/-- Mongo `delete_one` on `_id`: remove the first matching clause, report
how many documents were deleted. -/
def delete_one (cls : List Clause) (clause_id : String) :
    Nat × List Clause :=
  match cls with
  | [] => (0, [])
  | c :: rest =>
    if c.id == clause_id then (1, rest)
    else
      let r := delete_one rest clause_id
      (r.1, c :: r.2)

/-- The body of clauses.py `delete_clause` inside its try block: 404 when
the clause does not exist, 500 when delete_one removed nothing, success
otherwise. -/
def delete_clause_body (cls : List Clause) (clause_id : String) :
    Except HTTPError String × List Clause :=
  match cls.find? (fun c => c.id == clause_id) with
  | none => (Except.error ⟨404, "Clause not found"⟩, cls)
  | some _ =>
    let r := delete_one cls clause_id
    if r.1 == 0 then (Except.error ⟨500, "Failed to delete clause"⟩, r.2)
    else (Except.ok "Clause deleted successfully", r.2)

/-- clauses.py `delete_clause` (DELETE /api/clauses/{id}): the whole body
runs inside `try ... except Exception as e: raise HTTPException(500, str(e))`.
fastapi's HTTPException derives from Exception, so the 404 (and the inner
500) raised inside the try are caught by the blanket handler and re-raised
as a 500 whose detail is str(e). -/
def delete_clause (cls : List Clause) (clause_id : String) :
    Except HTTPError String × List Clause :=
  match delete_clause_body cls clause_id with
  | (Except.error e, cls2) =>
    (Except.error ⟨500, httpExceptionToString e⟩, cls2)
  | (Except.ok m, cls2) => (Except.ok m, cls2)

end Clauses

/-! Concrete fixtures used by witnesses and counterexamples. -/

/-- A freshly created document assigned to reviewer "u1" with approver
"a1". -/
def sampleDoc : Doc :=
  { id := "d1", title := "Contract", content := none, reviewer_id := "u1",
    approvers := ["a1"], status := DocumentStatus.new, created_at := 0,
    last_modified := 0, notes := none, last_reviewed_by := none,
    changes_summary := none }

/-- The assigned reviewer of sampleDoc. -/
def sampleReviewer : UserRec :=
  { id := "u1", email := "rev@example.com", password := "pw",
    role := UserRole.reviewer }

/-- The approver listed on sampleDoc. -/
def sampleApprover : UserRec :=
  { id := "a1", email := "app@example.com", password := "pw",
    role := UserRole.approver }

/-- A reviewer-role user whose id coincides with an entry of sampleDoc's
approvers list but differs from its reviewer_id. -/
def rogueReviewer : UserRec :=
  { id := "a1", email := "rogue@example.com", password := "pw",
    role := UserRole.reviewer }

/-! Helper lemmas about the store accessor. -/

namespace Database

theorem applyUpdate_id (d : Doc) (u : UpdateData) (now : Nat) :
    (applyUpdate d u now).id = d.id := rfl

theorem applyUpdate_reviewer_id (d : Doc) (u : UpdateData) (now : Nat) :
    (applyUpdate d u now).reviewer_id = d.reviewer_id := rfl

theorem applyUpdate_last_modified (d : Doc) (u : UpdateData) (now : Nat) :
    (applyUpdate d u now).last_modified = now := rfl

theorem applyUpdate_status (d : Doc) (u : UpdateData) (now : Nat) :
    (applyUpdate d u now).status = u.status.getD d.status := rfl

theorem applyUpdate_approvers (d : Doc) (u : UpdateData) (now : Nat) :
    (applyUpdate d u now).approvers = u.approvers.getD d.approvers := rfl

theorem applyUpdate_notes (d : Doc) (u : UpdateData) (now : Nat) :
    (applyUpdate d u now).notes = u.notes.getD d.notes := rfl

theorem applyUpdate_last_reviewed_by (d : Doc) (u : UpdateData) (now : Nat) :
    (applyUpdate d u now).last_reviewed_by
      = (u.last_reviewed_by.map some).getD d.last_reviewed_by := rfl

/-- Looking up the updated id after update_document yields the old document
with the payload applied (ids are matched first-to-first on both sides). -/
theorem get_update_document (docs : List Doc) (doc_id : String)
    (u : UpdateData) (now : Nat) :
    get_document_by_id (update_document docs doc_id u now) doc_id
      = (get_document_by_id docs doc_id).map (fun d => applyUpdate d u now) := by
  induction docs with
  | nil => rfl
  | cons d rest ih =>
    by_cases h : d.id == doc_id
    · simp [update_document, get_document_by_id, h, List.find?_cons,
        applyUpdate_id]
    · simp only [update_document, h, if_false, Bool.false_eq_true]
      simp only [get_document_by_id, List.find?_cons, h] at ih ⊢
      exact ih

end Database

/-! Helper lemmas about the workflow handlers. -/

namespace MainApp

/-- On an authorized read (caller is the reviewer or one of the approvers),
get_document reduces to the status-conditional update. -/
theorem get_document_eq_of_auth (docs : List Doc) (caller : UserRec)
    (document_id : String) (now : Nat) (doc : Doc)
    (hdoc : Database.get_document_by_id docs document_id = some doc)
    (hauth : caller.id = doc.reviewer_id ∨ caller.id ∈ doc.approvers) :
    get_document docs caller document_id now
      = if doc.status = DocumentStatus.new
            ∨ doc.status = DocumentStatus.pending then
          (Except.ok doc,
            Database.update_document docs document_id
              { status := some DocumentStatus.in_progress } now)
        else
          (Except.ok doc, docs) := by
  have hna : ¬(caller.id ≠ doc.reviewer_id ∧ caller.id ∉ doc.approvers) := by
    tauto
  unfold get_document
  rw [hdoc]
  dsimp only
  rw [if_neg hna]

/-- ensureStatus keeps a payload whose status key is present. -/
theorem ensureStatus_of_some (u : UpdateData) (document : Doc) (s : DocumentStatus)
    (h : u.status = some s) : ensureStatus u document = u := by
  unfold ensureStatus
  rw [h]

/-- The approver rejection payload always carries IN_PROGRESS, the request's
notes, and the caller's id. -/
theorem approverUpdateData_of_not_approved (update : DocumentUpdate)
    (caller : UserRec) (h : update.status ≠ some DocumentStatus.approved) :
    (approverUpdateData update caller).status = some DocumentStatus.in_progress
    ∧ (approverUpdateData update caller).notes = some update.notes
    ∧ (approverUpdateData update caller).last_reviewed_by = some caller.id := by
  unfold approverUpdateData
  rw [if_neg h]
  cases update.content with
  | none => exact ⟨rfl, rfl, rfl⟩
  | some c =>
    dsimp only
    by_cases hc : c ≠ ""
    · rw [if_pos hc]; exact ⟨rfl, rfl, rfl⟩
    · rw [if_neg hc]; exact ⟨rfl, rfl, rfl⟩

end MainApp

/-! Claim theorems. -/

/-- Claim C4 (code_bug evaluation): deleting a clause id absent from the
clauses collection yields HTTP 500 (the blanket `except Exception` swallows
the intended 404 and re-raises it as 500 with detail str(e)), with the
collection unchanged. -/
theorem delete_clause_nonexistent_returns_500 :
    Clauses.delete_clause [] "nosuch"
      = (Except.error ⟨500, "404: Clause not found"⟩, []) := rfl

/-- Claim C8 (counterexample): a login with an unknown username is answered
with HTTP 401, which is none of 500, 404 and 403 — so not every error
response carries one of those three statuses. -/
theorem login_returns_401_counterexample :
    MainApp.login [] "alice" "pw"
      = Except.error ⟨401, "Incorrect username or password"⟩
    ∧ ¬((401 : Nat) = 500 ∨ (401 : Nat) = 404 ∨ (401 : Nat) = 403) :=
  ⟨rfl, by decide⟩

/-- Claim C6 (counterexample): a caller with role reviewer whose id differs
from the document's reviewer_id but appears in its approvers list is NOT
given 403 on GET /documents/{id} — the read authorization never consults the
role, so the claim's "both GET and PUT return 403" fails on GET. -/
theorem get_document_rogue_reviewer_not_forbidden :
    rogueReviewer.role = UserRole.reviewer
    ∧ rogueReviewer.id ≠ sampleDoc.reviewer_id
    ∧ Database.get_document_by_id [sampleDoc] "d1" = some sampleDoc
    ∧ (MainApp.get_document [sampleDoc] rogueReviewer "d1" 7).1
        = Except.ok sampleDoc :=
  ⟨rfl, by decide, rfl, rfl⟩

/-- Claim C7: the standalone status sweep maps each document to itself with
status PENDING when its status is NEW and it was created strictly more than
one day before `now`, and to itself unchanged otherwise. -/
theorem sweep_sets_pending_exactly_for_stale_new (docs : List Doc) (now : Nat) :
    List.Forall₂
      (fun d d2 =>
        d2 = if d.status = DocumentStatus.new
                ∧ d.created_at < now - Database.oneDay then
               { d with status := DocumentStatus.pending }
             else d)
      docs (Database.update_document_status docs now) := by
  induction docs with
  | nil => exact List.Forall₂.nil
  | cons d rest ih => exact List.Forall₂.cons rfl ih

/-- Claim C9: every write that goes through the store's update_document
stamps the updated document's last_modified with the time of the update,
whatever fields the payload carries; documents in the updated collection are
either untouched members of the old collection or carry the new stamp. -/
theorem update_document_stamps_last_modified (docs : List Doc)
    (doc_id : String) (u : UpdateData) (now : Nat) (doc : Doc)
    (hdoc : Database.get_document_by_id docs doc_id = some doc) :
    (∃ doc2, Database.get_document_by_id
        (Database.update_document docs doc_id u now) doc_id = some doc2
      ∧ doc2.last_modified = now)
    ∧ ∀ d2 ∈ Database.update_document docs doc_id u now,
        d2 ∈ docs ∨ d2.last_modified = now := by
  constructor
  · refine ⟨Database.applyUpdate doc u now, ?_, rfl⟩
    rw [Database.get_update_document, hdoc]
    rfl
  · intro d2 hd2
    clear hdoc
    induction docs with
    | nil => cases hd2
    | cons d rest ih =>
      unfold Database.update_document at hd2
      by_cases h : d.id == doc_id
      · rw [if_pos h] at hd2
        rcases List.mem_cons.mp hd2 with h2 | h2
        · right; rw [h2]; rfl
        · left; exact List.mem_cons_of_mem d h2
      · rw [if_neg h] at hd2
        rcases List.mem_cons.mp hd2 with h2 | h2
        · left; rw [h2]; exact List.mem_cons_self d rest
        · rcases ih h2 with h3 | h3
          · left; exact List.mem_cons_of_mem d h3
          · right; exact h3

/-- Witness for C9 at a concrete store: updating sampleDoc's notes at time 42
yields a stored document stamped 42. -/
theorem update_document_stamps_last_modified_witness :
    (∃ doc2, Database.get_document_by_id
        (Database.update_document [sampleDoc] "d1"
          { notes := some (some "n") } 42) "d1" = some doc2
      ∧ doc2.last_modified = 42)
    ∧ ∀ d2 ∈ Database.update_document [sampleDoc] "d1"
        { notes := some (some "n") } 42,
        d2 ∈ [sampleDoc] ∨ d2.last_modified = 42 :=
  update_document_stamps_last_modified [sampleDoc] "d1"
    { notes := some (some "n") } 42 sampleDoc rfl

/-- Claim C1: an authorized GET of a document whose status is NEW or PENDING
transitions the stored status to IN_PROGRESS; a read of a document in any
other status leaves the store unchanged; and an immediate authorized re-read
changes nothing further — the read-induced transition is idempotent. -/
theorem get_document_read_transition (docs : List Doc) (caller : UserRec)
    (document_id : String) (now later : Nat) (doc : Doc)
    (hdoc : Database.get_document_by_id docs document_id = some doc)
    (hauth : caller.id = doc.reviewer_id ∨ caller.id ∈ doc.approvers) :
    ((doc.status = DocumentStatus.new ∨ doc.status = DocumentStatus.pending) →
      ∃ doc2, Database.get_document_by_id
          (MainApp.get_document docs caller document_id now).2 document_id
          = some doc2
        ∧ doc2.status = DocumentStatus.in_progress)
    ∧ (¬(doc.status = DocumentStatus.new
          ∨ doc.status = DocumentStatus.pending) →
        (MainApp.get_document docs caller document_id now).2 = docs)
    ∧ (MainApp.get_document
          (MainApp.get_document docs caller document_id now).2
          caller document_id later).2
        = (MainApp.get_document docs caller document_id now).2 := by
  rw [MainApp.get_document_eq_of_auth docs caller document_id now doc hdoc hauth]
  by_cases hst : doc.status = DocumentStatus.new
      ∨ doc.status = DocumentStatus.pending
  · rw [if_pos hst]
    dsimp only
    have hdoc2 : Database.get_document_by_id
        (Database.update_document docs document_id
          { status := some DocumentStatus.in_progress } now) document_id
        = some (Database.applyUpdate doc
          { status := some DocumentStatus.in_progress } now) := by
      rw [Database.get_update_document, hdoc]
      rfl
    have hauth2 : caller.id = (Database.applyUpdate doc
          { status := some DocumentStatus.in_progress } now).reviewer_id
        ∨ caller.id ∈ (Database.applyUpdate doc
          { status := some DocumentStatus.in_progress } now).approvers := hauth
    refine ⟨fun _ => ⟨_, hdoc2, rfl⟩, fun h => absurd hst h, ?_⟩
    rw [MainApp.get_document_eq_of_auth _ caller document_id later _ hdoc2 hauth2]
    have hstatus2 : (Database.applyUpdate doc
        { status := some DocumentStatus.in_progress } now).status
        = DocumentStatus.in_progress := rfl
    rw [if_neg (by rw [hstatus2]; decide)]
  · rw [if_neg hst]
    dsimp only
    refine ⟨fun h => absurd h hst, fun _ => rfl, ?_⟩
    rw [MainApp.get_document_eq_of_auth docs caller document_id later doc hdoc hauth]
    rw [if_neg hst]

/-- Witness for C1: reading sampleDoc (status NEW) as its reviewer. -/
theorem get_document_read_transition_witness :
    ((sampleDoc.status = DocumentStatus.new
        ∨ sampleDoc.status = DocumentStatus.pending) →
      ∃ doc2, Database.get_document_by_id
          (MainApp.get_document [sampleDoc] sampleReviewer "d1" 7).2 "d1"
          = some doc2
        ∧ doc2.status = DocumentStatus.in_progress)
    ∧ (¬(sampleDoc.status = DocumentStatus.new
          ∨ sampleDoc.status = DocumentStatus.pending) →
        (MainApp.get_document [sampleDoc] sampleReviewer "d1" 7).2 = [sampleDoc])
    ∧ (MainApp.get_document
          (MainApp.get_document [sampleDoc] sampleReviewer "d1" 7).2
          sampleReviewer "d1" 9).2
        = (MainApp.get_document [sampleDoc] sampleReviewer "d1" 7).2 :=
  get_document_read_transition [sampleDoc] sampleReviewer "d1" 7 9 sampleDoc
    rfl (Or.inl rfl)

/-- Claim C10: an authorized GET of a NEW or PENDING document answers with
the document as fetched — still carrying the pre-transition status — while
the stored copy is updated to IN_PROGRESS; the new status is observable only
on a subsequent read. -/
theorem get_document_returns_pre_transition_status (docs : List Doc)
    (caller : UserRec) (document_id : String) (now : Nat) (doc : Doc)
    (hdoc : Database.get_document_by_id docs document_id = some doc)
    (hauth : caller.id = doc.reviewer_id ∨ caller.id ∈ doc.approvers)
    (hst : doc.status = DocumentStatus.new
      ∨ doc.status = DocumentStatus.pending) :
    (MainApp.get_document docs caller document_id now).1 = Except.ok doc
    ∧ (∃ doc2, Database.get_document_by_id
        (MainApp.get_document docs caller document_id now).2 document_id
        = some doc2 ∧ doc2.status = DocumentStatus.in_progress)
    ∧ ∀ later, ∃ doc2,
        (MainApp.get_document
          (MainApp.get_document docs caller document_id now).2
          caller document_id later).1 = Except.ok doc2
        ∧ doc2.status = DocumentStatus.in_progress := by
  rw [MainApp.get_document_eq_of_auth docs caller document_id now doc hdoc hauth]
  rw [if_pos hst]
  dsimp only
  have hdoc2 : Database.get_document_by_id
      (Database.update_document docs document_id
        { status := some DocumentStatus.in_progress } now) document_id
      = some (Database.applyUpdate doc
        { status := some DocumentStatus.in_progress } now) := by
    rw [Database.get_update_document, hdoc]
    rfl
  have hauth2 : caller.id = (Database.applyUpdate doc
        { status := some DocumentStatus.in_progress } now).reviewer_id
      ∨ caller.id ∈ (Database.applyUpdate doc
        { status := some DocumentStatus.in_progress } now).approvers := hauth
  refine ⟨rfl, ⟨_, hdoc2, rfl⟩, fun later => ?_⟩
  rw [MainApp.get_document_eq_of_auth _ caller document_id later _ hdoc2 hauth2]
  have hstatus2 : (Database.applyUpdate doc
      { status := some DocumentStatus.in_progress } now).status
      = DocumentStatus.in_progress := rfl
  rw [if_neg (by rw [hstatus2]; decide)]
  exact ⟨_, rfl, rfl⟩

/-- Witness for C10: reading sampleDoc (status NEW) as its reviewer answers
with the NEW body while storing IN_PROGRESS. -/
theorem get_document_returns_pre_transition_status_witness :
    (MainApp.get_document [sampleDoc] sampleReviewer "d1" 7).1
      = Except.ok sampleDoc
    ∧ (∃ doc2, Database.get_document_by_id
        (MainApp.get_document [sampleDoc] sampleReviewer "d1" 7).2 "d1"
        = some doc2 ∧ doc2.status = DocumentStatus.in_progress)
    ∧ ∀ later, ∃ doc2,
        (MainApp.get_document
          (MainApp.get_document [sampleDoc] sampleReviewer "d1" 7).2
          sampleReviewer "d1" later).1 = Except.ok doc2
        ∧ doc2.status = DocumentStatus.in_progress :=
  get_document_returns_pre_transition_status [sampleDoc] sampleReviewer "d1" 7
    sampleDoc rfl (Or.inl rfl) (Or.inl rfl)

/-- Claim C2: a caller with role approver listed in the document's approvers
who PUTs status=APPROVED gets the stored status set to APPROVED, whatever
the document's prior status was. -/
theorem approver_approve_sets_approved (docs : List Doc) (caller : UserRec)
    (document_id : String) (update : DocumentUpdate) (now : Nat) (doc : Doc)
    (hdoc : Database.get_document_by_id docs document_id = some doc)
    (hrole : caller.role = UserRole.approver)
    (hmem : caller.id ∈ doc.approvers)
    (hst : update.status = some DocumentStatus.approved) :
    (MainApp.update_document_status docs caller document_id update now).1
      = Except.ok "Document updated successfully"
    ∧ ∃ doc2, Database.get_document_by_id
        (MainApp.update_document_status docs caller document_id update now).2
        document_id = some doc2
      ∧ doc2.status = DocumentStatus.approved := by
  unfold MainApp.update_document_status
  rw [hdoc]
  dsimp only
  rw [hrole]
  dsimp only
  rw [if_neg (not_not_intro hmem)]
  have hpay : MainApp.ensureStatus (MainApp.approverUpdateData update caller) doc
      = { status := some DocumentStatus.approved, notes := some update.notes } := by
    unfold MainApp.approverUpdateData
    rw [if_pos hst, hst]
    rfl
  rw [hpay]
  refine ⟨rfl, ?_⟩
  dsimp only
  rw [Database.get_update_document, hdoc]
  exact ⟨_, rfl, rfl⟩

/-- Witness for C2: sampleApprover approves sampleDoc. -/
theorem approver_approve_sets_approved_witness :
    (MainApp.update_document_status [sampleDoc] sampleApprover "d1"
        { status := some DocumentStatus.approved, notes := some "ok" } 5).1
      = Except.ok "Document updated successfully"
    ∧ ∃ doc2, Database.get_document_by_id
        (MainApp.update_document_status [sampleDoc] sampleApprover "d1"
          { status := some DocumentStatus.approved, notes := some "ok" } 5).2
        "d1" = some doc2
      ∧ doc2.status = DocumentStatus.approved :=
  approver_approve_sets_approved [sampleDoc] sampleApprover "d1"
    { status := some DocumentStatus.approved, notes := some "ok" } 5 sampleDoc
    rfl rfl (List.Mem.head _) rfl

/-- Claim C3: a caller with role approver listed in the document's approvers
whose PUT does not carry status=APPROVED (a rejection) gets the stored
status set to IN_PROGRESS, the supplied notes stored, and the caller's id
recorded as last_reviewed_by. -/
theorem approver_reject_sets_in_progress (docs : List Doc) (caller : UserRec)
    (document_id : String) (update : DocumentUpdate) (now : Nat) (doc : Doc)
    (hdoc : Database.get_document_by_id docs document_id = some doc)
    (hrole : caller.role = UserRole.approver)
    (hmem : caller.id ∈ doc.approvers)
    (hst : update.status ≠ some DocumentStatus.approved) :
    (MainApp.update_document_status docs caller document_id update now).1
      = Except.ok "Document updated successfully"
    ∧ ∃ doc2, Database.get_document_by_id
        (MainApp.update_document_status docs caller document_id update now).2
        document_id = some doc2
      ∧ doc2.status = DocumentStatus.in_progress
      ∧ doc2.notes = update.notes
      ∧ doc2.last_reviewed_by = some caller.id := by
  unfold MainApp.update_document_status
  rw [hdoc]
  dsimp only
  rw [hrole]
  dsimp only
  rw [if_neg (not_not_intro hmem)]
  have h1 := MainApp.approverUpdateData_of_not_approved update caller hst
  have hpay : MainApp.ensureStatus (MainApp.approverUpdateData update caller) doc
      = MainApp.approverUpdateData update caller :=
    MainApp.ensureStatus_of_some _ _ _ h1.1
  rw [hpay]
  refine ⟨rfl, ?_⟩
  dsimp only
  rw [Database.get_update_document, hdoc]
  refine ⟨_, rfl, ?_, ?_, ?_⟩
  · rw [Database.applyUpdate_status, h1.1]
    rfl
  · rw [Database.applyUpdate_notes, h1.2.1]
    rfl
  · rw [Database.applyUpdate_last_reviewed_by, h1.2.2]
    rfl

/-- Witness for C3: sampleApprover rejects sampleDoc with notes. -/
theorem approver_reject_sets_in_progress_witness :
    (MainApp.update_document_status [sampleDoc] sampleApprover "d1"
        { notes := some "fix it" } 5).1
      = Except.ok "Document updated successfully"
    ∧ ∃ doc2, Database.get_document_by_id
        (MainApp.update_document_status [sampleDoc] sampleApprover "d1"
          { notes := some "fix it" } 5).2 "d1" = some doc2
      ∧ doc2.status = DocumentStatus.in_progress
      ∧ doc2.notes = ({ notes := some "fix it" } : DocumentUpdate).notes
      ∧ doc2.last_reviewed_by = some sampleApprover.id :=
  approver_reject_sets_in_progress [sampleDoc] sampleApprover "d1"
    { notes := some "fix it" } 5 sampleDoc rfl rfl (List.Mem.head _)
    (by decide)

/-- Claim C5: when the assigned reviewer submits an approvers list, any id
that does not resolve to an existing approver-role user makes the endpoint
answer 400 with the documents collection untouched; only when every id
validates is the approvers field written. -/
theorem add_approvers_validates_before_write (docs : List Doc)
    (users : List UserRec) (caller : UserRec) (document_id : String)
    (approver_ids : List String) (now : Nat) (doc : Doc)
    (hdoc : Database.get_document_by_id docs document_id = some doc)
    (hrole : caller.role = UserRole.reviewer)
    (hassigned : caller.id = doc.reviewer_id) :
    ((∃ a ∈ approver_ids, MainApp.isValidApprover users a = false) →
      ∃ e, MainApp.add_approvers docs users caller document_id approver_ids now
          = (Except.error e, docs)
        ∧ e.code = 400)
    ∧ ((∀ a ∈ approver_ids, MainApp.isValidApprover users a = true) →
      ∃ doc2, Database.get_document_by_id
          (MainApp.add_approvers docs users caller document_id
            approver_ids now).2 document_id = some doc2
        ∧ doc2.approvers = approver_ids) := by
  unfold MainApp.add_approvers
  rw [hdoc]
  dsimp only
  rw [if_neg (by push_neg; exact ⟨hrole, hassigned⟩)]
  cases hfind : MainApp.firstInvalidApprover users approver_ids with
  | some bad =>
    constructor
    · intro _
      exact ⟨⟨400, "Invalid approver ID: " ++ bad⟩, rfl, rfl⟩
    · intro hall
      exfalso
      unfold MainApp.firstInvalidApprover at hfind
      have hm := List.mem_of_find?_eq_some hfind
      have hp := List.find?_some hfind
      rw [hall bad hm] at hp
      cases hp
  | none =>
    constructor
    · rintro ⟨a, ha, hainv⟩
      exfalso
      unfold MainApp.firstInvalidApprover at hfind
      have := List.find?_eq_none.mp hfind a ha
      rw [hainv] at this
      exact this rfl
    · intro _
      dsimp only
      rw [Database.get_update_document, hdoc]
      exact ⟨_, rfl, rfl⟩

/-- Witness for C5: sampleReviewer assigns ["a1"] on sampleDoc against a
users collection containing sampleApprover. -/
theorem add_approvers_validates_before_write_witness :
    ((∃ a ∈ ["a1"], MainApp.isValidApprover [sampleApprover] a = false) →
      ∃ e, MainApp.add_approvers [sampleDoc] [sampleApprover] sampleReviewer
          "d1" ["a1"] 3 = (Except.error e, [sampleDoc])
        ∧ e.code = 400)
    ∧ ((∀ a ∈ ["a1"], MainApp.isValidApprover [sampleApprover] a = true) →
      ∃ doc2, Database.get_document_by_id
          (MainApp.add_approvers [sampleDoc] [sampleApprover] sampleReviewer
            "d1" ["a1"] 3).2 "d1" = some doc2
        ∧ doc2.approvers = ["a1"]) :=
  add_approvers_validates_before_write [sampleDoc] [sampleApprover]
    sampleReviewer "d1" ["a1"] 3 sampleDoc rfl rfl rfl

/-- Claim C6 (amended): a caller with role reviewer whose id differs from
the document's reviewer_id receives 403 on PUT with the store unchanged;
on GET the same holds provided the caller's id is also absent from the
document's approvers list (the read authorization checks ids only, never
the role). -/
theorem reviewer_not_assigned_forbidden (docs : List Doc) (caller : UserRec)
    (document_id : String) (update : DocumentUpdate) (now later : Nat)
    (doc : Doc)
    (hdoc : Database.get_document_by_id docs document_id = some doc)
    (hrole : caller.role = UserRole.reviewer)
    (hne : caller.id ≠ doc.reviewer_id) :
    MainApp.update_document_status docs caller document_id update now
      = (Except.error ⟨403, "Not authorized to update this document"⟩, docs)
    ∧ (caller.id ∉ doc.approvers →
        MainApp.get_document docs caller document_id later
          = (Except.error ⟨403, "Not authorized to access this document"⟩,
             docs)) := by
  constructor
  · unfold MainApp.update_document_status
    rw [hdoc]
    dsimp only
    rw [hrole]
    dsimp only
    rw [if_pos hne]
  · intro hnmem
    unfold MainApp.get_document
    rw [hdoc]
    dsimp only
    rw [if_pos ⟨hne, hnmem⟩]

/-- Witness for C6 (amended): an unrelated reviewer-role caller "x" is
forbidden on both PUT and GET of sampleDoc. -/
theorem reviewer_not_assigned_forbidden_witness :
    MainApp.update_document_status [sampleDoc]
        ⟨"x", "x@example.com", "pw", UserRole.reviewer⟩ "d1"
        { notes := some "n" } 1
      = (Except.error ⟨403, "Not authorized to update this document"⟩,
         [sampleDoc])
    ∧ ((⟨"x", "x@example.com", "pw", UserRole.reviewer⟩ : UserRec).id
          ∉ sampleDoc.approvers →
        MainApp.get_document [sampleDoc]
            ⟨"x", "x@example.com", "pw", UserRole.reviewer⟩ "d1" 2
          = (Except.error ⟨403, "Not authorized to access this document"⟩,
             [sampleDoc])) :=
  reviewer_not_assigned_forbidden [sampleDoc]
    ⟨"x", "x@example.com", "pw", UserRole.reviewer⟩ "d1"
    { notes := some "n" } 1 2 sampleDoc rfl rfl (by decide)

/-- Claim C8 (amended): every error response of the modelled endpoints
(login, add_approvers, get_document, update_document_status, delete_clause)
carries HTTP status 400, 401, 403, 404 or 500 — the spec's closed set of
500/404/403 extended by login's 401 and the approver-validation 400. -/
theorem error_statuses_closed (docs : List Doc) (users : List UserRec)
    (cls : List Clause) (caller : UserRec) (document_id clause_id : String)
    (approver_ids : List String) (update : DocumentUpdate)
    (username password : String) (now : Nat) (e : HTTPError) :
    (MainApp.login users username password = Except.error e
      ∨ (MainApp.add_approvers docs users caller document_id
          approver_ids now).1 = Except.error e
      ∨ (MainApp.get_document docs caller document_id now).1 = Except.error e
      ∨ (MainApp.update_document_status docs caller document_id
          update now).1 = Except.error e
      ∨ (Clauses.delete_clause cls clause_id).1 = Except.error e) →
    e.code = 400 ∨ e.code = 401 ∨ e.code = 403 ∨ e.code = 404
      ∨ e.code = 500 := by
  rintro (h | h | h | h | h)
  · unfold MainApp.login at h
    repeat' split at h
    all_goals try exact Except.noConfusion h
    all_goals injection h with h2
    all_goals subst h2
    all_goals try dsimp only
    all_goals decide
  · unfold MainApp.add_approvers at h
    repeat' split at h
    all_goals dsimp only at h
    all_goals try exact Except.noConfusion h
    all_goals injection h with h2
    all_goals subst h2
    all_goals try dsimp only
    all_goals decide
  · unfold MainApp.get_document at h
    repeat' split at h
    all_goals dsimp only at h
    all_goals try exact Except.noConfusion h
    all_goals injection h with h2
    all_goals subst h2
    all_goals try dsimp only
    all_goals decide
  · unfold MainApp.update_document_status at h
    repeat' split at h
    all_goals dsimp only at h
    all_goals try exact Except.noConfusion h
    all_goals injection h with h2
    all_goals subst h2
    all_goals try dsimp only
    all_goals decide
  · unfold Clauses.delete_clause at h
    repeat' split at h
    all_goals dsimp only at h
    all_goals try exact Except.noConfusion h
    all_goals injection h with h2
    all_goals subst h2
    all_goals try dsimp only
    all_goals decide

/-- Witness for C8 (amended): the 404 from reading a missing document is in
the closed status set. -/
theorem error_statuses_closed_witness :
    (404 : Nat) = 400 ∨ (404 : Nat) = 401 ∨ (404 : Nat) = 403
      ∨ (404 : Nat) = 404 ∨ (404 : Nat) = 500 :=
  error_statuses_closed [] [] [] sampleReviewer "d1" "c1" []
    ({} : DocumentUpdate) "u" "p" 0 ⟨404, "Document not found"⟩
    (Or.inr (Or.inr (Or.inl rfl)))
